import Mathlib

/-!
Verification of the breakout engine (`breakout.py`): a shallow embedding of
the collision/physics code, the level generator and the game state machine,
with theorems checking the natural-language specification against it.

Conventions of the embedding:
* Python `float` values are modelled as real numbers (`ℝ`).
* Python `int` values (and `pygame.Rect` fields) are modelled as `ℤ`.
* `int(x)` (truncation toward zero) is modelled by `pyInt`.
* Python `//` (floor division) and pygame's `>> 1` are modelled by `Int.fdiv`.
* The global `random` source is modelled by explicit draw streams
  (`Rand`): `inc n` is the n-th `random.random()` inclusion draw of
  `build_level`, `pick n` abstracts the n-th `random.choice` color index;
  the ball-launch angle draw is passed as an explicit `θ` argument.
* `pygame.Rect.collidepoint` excludes the right and bottom edges and
  truncates float arguments to integers, which is modelled faithfully.
-/

namespace Breakout

/-! ### Configuration constants (`breakout.py` lines 39-61) -/

noncomputable section

def LOGICAL_W : ℤ := 800
def LOGICAL_H : ℤ := 600
def FPS : ℝ := 120

def PADDLE_W : ℤ := 110
def PADDLE_H : ℤ := 16
def PADDLE_Y : ℤ := 540          -- LOGICAL_H - 60
def PADDLE_ACCEL : ℝ := 2200
def PADDLE_MAX_SPEED : ℝ := 650
def PADDLE_FRICTION : ℝ := 1 / 1000000

def BALL_RADIUS : ℤ := 8
def BALL_SPEED : ℝ := 370
def BALL_SPEED_INC_ON_HIT : ℝ := 4
def BALL_MAX_SPEED : ℝ := 820

def BRICK_ROWS : ℤ := 7
def BRICK_COLS : ℤ := 12
def BRICK_W : ℤ := 56
def BRICK_H : ℤ := 24
def BRICK_GAP : ℤ := 4
def TOP_MARGIN : ℤ := 80

def LIVES_START : ℤ := 3

/-- Colors are cosmetic `(r, g, b)` tags. -/
abbrev Color := ℕ × ℕ × ℕ

def WHITE : Color := (240, 240, 240)
def GREY : Color := (70, 80, 95)
def CYAN : Color := (80, 235, 255)
def GREEN : Color := (100, 240, 140)
def MAGENTA : Color := (230, 120, 255)
def YELLOW : Color := (255, 230, 120)
def ORANGE : Color := (255, 170, 80)
def RED : Color := (255, 95, 95)

/-! ### `pygame.Rect` -/

/-- A `pygame.Rect`: integer position and size. -/
structure Rect where
  x : ℤ
  y : ℤ
  w : ℤ
  h : ℤ
deriving DecidableEq

def Rect.left (r : Rect) : ℤ := r.x
def Rect.right (r : Rect) : ℤ := r.x + r.w
def Rect.top (r : Rect) : ℤ := r.y
def Rect.bottom (r : Rect) : ℤ := r.y + r.h

/-- `Rect.centerx` getter: `x + (w >> 1)` (arithmetic shift = floor division). -/
def Rect.centerx (r : Rect) : ℤ := r.x + r.w.fdiv 2

/-- `Rect.inflate(dx, dy)`: grows around the center
(`Rect(x - dx/2, y - dy/2, w + dx, h + dy)`, C truncating division). -/
def Rect.inflate (r : Rect) (dx dy : ℤ) : Rect :=
  ⟨r.x - dx.tdiv 2, r.y - dy.tdiv 2, r.w + dx, r.h + dy⟩

/-- `Rect.collidepoint` on integer coordinates: right/bottom edges excluded. -/
def Rect.collidepointZ (r : Rect) (px py : ℤ) : Prop :=
  r.left ≤ px ∧ px < r.right ∧ r.top ≤ py ∧ py < r.bottom

instance (r : Rect) (px py : ℤ) : Decidable (r.collidepointZ px py) := by
  unfold Rect.collidepointZ; infer_instance

/-! ### Bricks and the level builder (`build_level`, lines 224-283) -/

/-- `@dataclass Brick` (the `draw` method is rendering, out of scope). -/
structure Brick where
  rect : Rect
  color : Color
  alive : Bool
deriving DecidableEq

/-- Random draws consumed by `build_level` for levels ≥ 5: `inc n` is the
n-th `random.random()` call (one per grid cell), `pick n` abstracts the
n-th `random.choice(palette)` as a palette index. -/
structure Rand where
  inc : ℕ → ℚ
  pick : ℕ → ℕ

def palette : List Color := [MAGENTA, ORANGE, YELLOW, GREEN, CYAN, WHITE, RED]

/-- Horizontal start of the brick grid:
`left = (LOGICAL_W - total_w) // 2` with
`total_w = BRICK_COLS * BRICK_W + (BRICK_COLS - 1) * BRICK_GAP`. -/
def brickLeft : ℤ :=
  (LOGICAL_W - (BRICK_COLS * BRICK_W + (BRICK_COLS - 1) * BRICK_GAP)).fdiv 2

/-- The grid cell rectangle used by every layout of `build_level`:
`x = left + col * (BRICK_W + BRICK_GAP)`, `y = TOP_MARGIN + row * (BRICK_H + BRICK_GAP)`
(for level 3 the per-row left edge is recomputed, see `buildLevel`). -/
def cellRect (row col : ℤ) : Rect :=
  ⟨brickLeft + col * (BRICK_W + BRICK_GAP),
   TOP_MARGIN + row * (BRICK_H + BRICK_GAP), BRICK_W, BRICK_H⟩

/-- `build_level(level)` (lines 224-283).  Levels 1-4 are deterministic;
level ≥ 5 consumes one inclusion draw per cell (cell index `row * BRICK_COLS + col`)
and one color pick per included cell. -/
def buildLevel (level : ℤ) (rnd : Rand) : List Brick :=
  if level = 1 then
    -- LEVEL 1: Standard Block
    (List.range 7).flatMap fun (row : ℕ) =>
      (List.range 12).map fun (col : ℕ) =>
        ⟨cellRect row col, palette.getD (row % 7) WHITE, true⟩
  else if level = 2 then
    -- LEVEL 2: Checkerboard
    (List.range 7).flatMap fun (row : ℕ) =>
      ((List.range 12).filter fun (col : ℕ) => (row + col) % 2 = 0).map fun (col : ℕ) =>
        ⟨cellRect row col, palette.getD (col % 7) WHITE, true⟩
  else if level = 3 then
    -- LEVEL 3: Pyramid; `for row in range(BRICK_ROWS + 2)` with
    -- `cols_in_row = BRICK_COLS - row * 2` and `break` once it reaches ≤ 0
    -- (`takeWhile` models the `break`).
    ((List.range 9).takeWhile fun (row : ℕ) =>
        decide (0 < BRICK_COLS - (row : ℤ) * 2)).flatMap fun (row : ℕ) =>
      let colsInRow : ℤ := BRICK_COLS - (row : ℤ) * 2
      let rowW : ℤ := colsInRow * BRICK_W + (colsInRow - 1) * BRICK_GAP
      let rowLeft : ℤ := (LOGICAL_W - rowW).fdiv 2
      (List.range (12 - row * 2)).map fun (col : ℕ) =>
        ⟨⟨rowLeft + (col : ℤ) * (BRICK_W + BRICK_GAP),
          TOP_MARGIN + (row : ℤ) * (BRICK_H + BRICK_GAP), BRICK_W, BRICK_H⟩,
         palette.getD (row % 7) WHITE, true⟩
  else if level = 4 then
    -- LEVEL 4: Columns / Towers: `for col in range(0, BRICK_COLS, 2)`,
    -- `for row in range(BRICK_ROWS + 2)`.
    ((List.range 12).filter fun (col : ℕ) => col % 2 = 0).flatMap fun (col : ℕ) =>
      (List.range 9).map fun (row : ℕ) =>
        ⟨cellRect row col, if row % 2 = 0 then RED else WHITE, true⟩
  else
    -- LEVEL 5+: Random / Dense: `for row in range(BRICK_ROWS + 1)`,
    -- include a cell iff its draw is `> 0.2`.
    (List.range 8).flatMap fun (row : ℕ) =>
      ((List.range 12).filter fun (col : ℕ) =>
          decide ((1 : ℚ)/5 < rnd.inc (row * 12 + col))).map fun (col : ℕ) =>
        ⟨cellRect row col, palette.getD (rnd.pick (row * 12 + col) % 7) WHITE, true⟩

/-! ### Floats, `int()`, trigonometry -/

/-- Python `int(x)`: truncation toward zero. -/
def pyInt (x : ℝ) : ℤ := if 0 ≤ x then ⌊x⌋ else -⌊-x⌋

/-- `math.hypot(x, y)`. -/
def hypot (x y : ℝ) : ℝ := Real.sqrt (x ^ 2 + y ^ 2)

/-- `math.atan2(y, x)`: the argument of the complex number `x + y*i`
(`math.atan2(0, 0) = 0 = Complex.arg 0`). -/
def atan2 (y x : ℝ) : ℝ := Complex.arg ⟨x, y⟩

/-- `math.radians(d)`. -/
def radians (d : ℝ) : ℝ := d * Real.pi / 180

/-- `Rect.collidepoint` on float coordinates: pygame truncates the
arguments to integers before the (right/bottom-exclusive) containment test. -/
def Rect.collidepointF (r : Rect) (px py : ℝ) : Prop :=
  r.left ≤ pyInt px ∧ pyInt px < r.right ∧ r.top ≤ pyInt py ∧ pyInt py < r.bottom

instance (r : Rect) (px py : ℝ) : Decidable (r.collidepointF px py) := by
  unfold Rect.collidepointF; infer_instance

/-! ### Paddle (`@dataclass Paddle` and `Paddle.update`, lines 142-172) -/

structure Paddle where
  x : ℝ := (LOGICAL_W : ℝ) / 2
  y : ℝ := (PADDLE_Y : ℝ)
  w : ℝ := (PADDLE_W : ℝ)
  h : ℝ := (PADDLE_H : ℝ)
  vx : ℝ := 0

/-- `Paddle.rect()`: `pg.Rect(int(x - w/2), int(y - h/2), int(w), int(h))`. -/
def Paddle.rect (p : Paddle) : Rect :=
  ⟨pyInt (p.x - p.w / 2), pyInt (p.y - p.h / 2), pyInt p.w, pyInt p.h⟩

/-- The paddle velocity after acceleration, friction and the speed clamp
(the value of `self.vx` right before `self.x += self.vx * dt`). -/
def Paddle.velAfter (p : Paddle) (dt : ℝ) (left right : Bool) : ℝ :=
  let ax : ℝ := (if left then -PADDLE_ACCEL else 0) + (if right then PADDLE_ACCEL else 0)
  let vx := p.vx + ax * dt
  let vx := vx * (1 - PADDLE_FRICTION * max 0 (dt * FPS))
  max (-PADDLE_MAX_SPEED) (min PADDLE_MAX_SPEED vx)

/-- The integrated paddle position before the wall clamps. -/
def Paddle.rawX (p : Paddle) (dt : ℝ) (left right : Bool) : ℝ :=
  p.x + p.velAfter dt left right * dt

/-- `Paddle.update(dt, left, right)`. -/
def Paddle.update (p : Paddle) (dt : ℝ) (left right : Bool) : Paddle :=
  let vx := p.velAfter dt left right
  let x := p.rawX dt left right
  let half := p.w / 2
  let s : ℝ × ℝ := if x - half < 0 then (half, 0) else (x, vx)
  let s : ℝ × ℝ := if s.1 + half > (LOGICAL_W : ℝ) then ((LOGICAL_W : ℝ) - half, 0) else s
  { p with x := s.1, vx := s.2 }

/-! ### Ball (`@dataclass Ball` and `Ball.update`, lines 179-203) -/

structure Ball where
  x : ℝ
  y : ℝ
  vx : ℝ
  vy : ℝ
  r : ℤ := BALL_RADIUS
  stuck : Bool := true

/-- `Ball.update(dt)`: no-op while stuck; otherwise integrate position and
reflect off the side and top walls (clamp position, force the velocity sign
inward). -/
def Ball.update (b : Ball) (dt : ℝ) : Ball :=
  if b.stuck then b
  else
    let x := b.x + b.vx * dt
    let y := b.y + b.vy * dt
    let s : ℝ × ℝ := if x - b.r < 0 then ((b.r : ℝ), |b.vx|) else (x, b.vx)
    let s : ℝ × ℝ :=
      if s.1 + b.r > (LOGICAL_W : ℝ) then ((LOGICAL_W : ℝ) - b.r, -|s.2|) else s
    let t : ℝ × ℝ := if y - b.r < 0 then ((b.r : ℝ), |b.vy|) else (y, b.vy)
    { b with x := s.1, vx := s.2, y := t.1, vy := t.2 }

/-! ### Collision helpers (lines 294-349) -/

/-- `reflect_ball_off_paddle(ball, paddle)` (sound effects dropped). -/
def reflectBallOffPaddle (ball : Ball) (paddle : Paddle) : Ball :=
  let prect := paddle.rect
  if 0 < ball.vy ∧ prect.collidepointF ball.x (ball.y + (ball.r : ℝ)) then
    let rel := (ball.x - (prect.centerx : ℝ)) / (paddle.w / 2)
    let rel := max (-1) (min 1 rel)
    let angle := radians (150 * rel + 90)  -- the source comment says `15°..165° upward`
    let speed := min BALL_MAX_SPEED (hypot ball.vx ball.vy + 6)
    { ball with
        y := (prect.top : ℝ) - (ball.r : ℝ),
        vx := speed * Real.cos angle,
        vy := -|speed * Real.sin angle| }
  else ball

/-- The snap-and-flip resolution of a single brick impact
(the `if minx < miny` block of `ball_brick_collision`). -/
def resolveImpact (ball : Ball) (b : Brick) : Ball :=
  let dxLeft := |ball.x - (b.rect.left : ℝ)|
  let dxRight := |(b.rect.right : ℝ) - ball.x|
  let dyTop := |ball.y - (b.rect.top : ℝ)|
  let dyBottom := |(b.rect.bottom : ℝ) - ball.y|
  let minx := min dxLeft dxRight
  let miny := min dyTop dyBottom
  if minx < miny then
    -- horizontal impact
    if dxLeft < dxRight then
      { ball with x := (b.rect.left : ℝ) - (ball.r : ℝ), vx := -|ball.vx| }
    else
      { ball with x := (b.rect.right : ℝ) + (ball.r : ℝ), vx := |ball.vx| }
  else
    -- vertical impact
    if dyTop < dyBottom then
      { ball with y := (b.rect.top : ℝ) - (ball.r : ℝ), vy := -|ball.vy| }
    else
      { ball with y := (b.rect.bottom : ℝ) + (ball.r : ℝ), vy := |ball.vy| }

/-- The post-impact speed bump of `ball_brick_collision`: re-derive the
velocity from the current heading `atan2(vy, vx)` with magnitude
`min(BALL_MAX_SPEED, hypot(vx, vy) + BALL_SPEED_INC_ON_HIT)`. -/
def speedUp (ball : Ball) : Ball :=
  let speed := min BALL_MAX_SPEED (hypot ball.vx ball.vy + BALL_SPEED_INC_ON_HIT)
  let ang := atan2 ball.vy ball.vx
  { ball with vx := Real.cos ang * speed, vy := Real.sin ang * speed }

/-- One iteration of the `for b in bricks` loop of `ball_brick_collision`:
returns the updated ball, the updated brick, and whether the brick was hit.
The test expands the brick by the ball radius on every side
(`b.rect.inflate(ball.r*2, ball.r*2)`) and checks the ball center. -/
def brickStep (ball : Ball) (b : Brick) : Ball × Brick × Bool :=
  if ¬ b.alive then (ball, b, false)
  else if (b.rect.inflate (ball.r * 2) (ball.r * 2)).collidepointF ball.x ball.y then
    (speedUp (resolveImpact ball b), { b with alive := false }, true)
  else (ball, b, false)

/-- `ball_brick_collision(ball, bricks)` (sound effects dropped): the ball
is threaded through the brick list; returns the final ball, the updated
bricks and the number of bricks destroyed (`hit_count`). -/
def ballBrickCollision (ball : Ball) : List Brick → Ball × List Brick × ℕ
  | [] => (ball, [], 0)
  | b :: bs =>
      let s := brickStep ball b
      let rest := ballBrickCollision s.1 bs
      (rest.1, s.2.1 :: rest.2.1, (if s.2.2 then 1 else 0) + rest.2.2)

/-! ### Game state machine (`class Game`, lines 392-682).
Rendering, sound, the clock and the window are out of scope; the keyboard
polling of `update` is passed in as the `left`/`right` flags and the random
launch angle of `launch_ball` as `θ`. -/

inductive GState where
  | MENU
  | PLAYING
  | INPUT_NAME
  | GAME_OVER
deriving DecidableEq

structure Game where
  state : GState
  unlocked_level : ℤ
  level : ℤ
  lives : ℤ
  score : ℤ
  bricks : List Brick
  paddle : Paddle
  ball : Ball
  paused : Bool
  player_name : String
  final_message : String

/-- The freshly docked ball created by `start_level`, `lose_life` and the
level advance: `Ball(paddle.x, paddle.y - PADDLE_H//2 - BALL_RADIUS - 1, 0, 0,
BALL_RADIUS, True)`. -/
def freshBall (p : Paddle) : Ball :=
  { x := p.x, y := p.y - (PADDLE_H.fdiv 2 : ℝ) - (BALL_RADIUS : ℝ) - 1,
    vx := 0, vy := 0, r := BALL_RADIUS, stuck := true }

/-- `Game.__init__`: menu state, `unlocked_level = 1`.  The paddle, ball and
brick attributes do not exist yet in Python before `start_level`; they carry
inert defaults here and are only ever read after `start_level` ran. -/
def initGame : Game :=
  { state := .MENU, unlocked_level := 1, level := 1, lives := LIVES_START,
    score := 0, bricks := [], paddle := {}, ball := freshBall {},
    paused := false, player_name := "", final_message := "" }

/-- `Game.start_level(level_num)` (lines 434-445; `bg_color` is cosmetic). -/
def startLevel (g : Game) (lvl : ℤ) (rnd : Rand) : Game :=
  { g with
    level := lvl, lives := LIVES_START, score := 0,
    bricks := buildLevel lvl rnd, paddle := {}, ball := freshBall {},
    state := .PLAYING, paused := false, player_name := "", final_message := "" }

/-- `Game.launch_ball` (lines 447-453); `θ` is the random
`radians(uniform(45, 135))` draw. -/
def launchBall (g : Game) (θ : ℝ) : Game :=
  if ¬ g.ball.stuck then g
  else
    { g with ball := { g.ball with
        vx := BALL_SPEED * Real.cos θ,
        vy := -|BALL_SPEED * Real.sin θ|,
        stuck := false } }

/-- `Game.lose_life` (lines 455-465). -/
def loseLife (g : Game) : Game :=
  let lives := g.lives - 1
  if lives = 0 then
    { g with
      lives := lives, state := .INPUT_NAME,
      ball := { g.ball with vx := 0, vy := 0, stuck := true },
      final_message := "GAME OVER" }
  else
    { g with lives := lives, ball := freshBall g.paddle }

/-- The per-tick physics phase of `Game.update` (lines 477-490): paddle
update, ball docking or integration, paddle reflection, brick collisions and
scoring. -/
def physPhase (g : Game) (dt : ℝ) (left right : Bool) : Game :=
  let paddle := g.paddle.update dt left right
  let ball :=
    if g.ball.stuck then
      { g.ball with
        x := paddle.x,
        y := paddle.y - (PADDLE_H.fdiv 2 : ℝ) - (BALL_RADIUS : ℝ) - 1 }
    else g.ball.update dt
  let ball := reflectBallOffPaddle ball paddle
  let res := ballBrickCollision ball g.bricks
  { g with
    paddle := paddle, ball := res.1, bricks := res.2.1,
    score := g.score + (res.2.2 : ℤ) * 10 }

/-- The level-complete branch of `Game.update` (lines 495-519). -/
def levelComplete (g : Game) (rnd : Rand) : Game :=
  let next := g.level + 1
  let unlocked := if next > g.unlocked_level then next else g.unlocked_level
  if next ≤ 5 then
    { g with
      unlocked_level := unlocked, level := next, lives := g.lives + 1,
      bricks := buildLevel next rnd, ball := freshBall g.paddle }
  else
    { g with
      unlocked_level := unlocked, state := .INPUT_NAME,
      final_message := "VICTORY!",
      ball := { g.ball with vx := 0, vy := 0, stuck := true } }

/-- The `STATE_PLAYING` body of `Game.update` (lines 477-519): physics
phase, bottom-edge life loss, then the all-bricks-dead check. -/
def updatePlaying (g : Game) (dt : ℝ) (left right : Bool) (rnd : Rand) : Game :=
  let g1 := physPhase g dt left right
  let g2 :=
    if g1.ball.stuck = false ∧ (LOGICAL_H : ℝ) < g1.ball.y - (g1.ball.r : ℝ)
    then loseLife g1 else g1
  if g2.bricks.all (fun b => !b.alive) then levelComplete g2 rnd else g2

/-- `Game.update(dt)` (lines 467-519).  `rnd` feeds `build_level` on a level
advance. -/
def Game.update (g : Game) (dt : ℝ) (left right : Bool) (rnd : Rand) : Game :=
  if g.state ≠ .PLAYING then g
  else if g.paused then g
  else updatePlaying g dt left right rnd

/-! ### Event handling (`Game.handle_event`, lines 628-682) -/

/-- The F10 cheat applied to the first brick (lines 654-661):
`rect.centerx = int(paddle.x)` then `rect.bottom = int(paddle.y - 100)`. -/
def cheatBrick (b : Brick) (p : Paddle) : Brick :=
  let r1 := { b.rect with x := pyInt p.x - b.rect.w.fdiv 2 }
  let r2 := { r1 with y := pyInt (p.y - 100) - r1.h }
  { b with rect := r2 }

/-- The F10 cheat (lines 654-661): if the brick list is nonempty, keep only
its first brick, repositioned just above the paddle. -/
def cheat (g : Game) : Game :=
  match g.bricks with
  | [] => g
  | b :: _ => { g with bricks := [cheatBrick b g.paddle] }

/-- The five menu level buttons (`Game.init_menu`, lines 418-432). -/
def levelButtons : List Rect :=
  (List.range 5).map fun i => ⟨150 + (i % 3 : ℤ) * 120, 200 + (i / 3 : ℤ) * 120, 100, 100⟩

/-- One iteration of the menu mouse-click loop (lines 636-640): start level
`i + 1` if button `i` contains the click and that level is unlocked. -/
def menuClickStep (pos : ℤ × ℤ) (rnd : Rand) (g' : Game) (i : ℕ) : Game :=
  if (levelButtons.getD i ⟨0,0,0,0⟩).collidepointZ pos.1 pos.2 ∧
      (i : ℤ) + 1 ≤ g'.unlocked_level
  then startLevel g' ((i : ℤ) + 1) rnd else g'

/-- The menu mouse-click loop (lines 633-640): for every button containing
the click that is unlocked, start that level. -/
def menuClick (g : Game) (pos : ℤ × ℤ) (rnd : Rand) : Game :=
  (List.range 5).foldl (menuClickStep pos rnd) g

inductive Key where
  | ret
  | back
  | esc
  | m
  | p
  | space
  | f10
  | other
deriving DecidableEq

/-- An input event.  `keyDown` carries the key, its `e.unicode` string and
the value of `e.unicode.isprintable()`. -/
inductive Event where
  | quit
  | mouseDown (button : ℤ) (pos : ℤ × ℤ)
  | keyDown (k : Key) (uni : String) (printable : Bool)

/-- The `STATE_PLAYING` key handling of `Game.handle_event` (lines 645-661):
the sequential `if` tests on `e.key` for menu exit, launch, pause toggle and
the F10 cheat. -/
def handleKeyPlaying (g : Game) (k : Key) (θ : ℝ) : Game :=
  let g := if k = .esc ∨ k = .m then { g with state := .MENU } else g
  let g := if k = .space then launchBall g θ else g
  let g := if k = .p then { g with paused := !g.paused } else g
  if k = .f10 then cheat g else g

/-- The `STATE_INPUT_NAME` key handling of `Game.handle_event`
(lines 663-674): RETURN substitutes a default name if empty, fires the
score submission and moves to `GAME_OVER`; BACKSPACE strips the last
character; any other key appends its printable unicode up to 12 characters. -/
def handleKeyInputName (g : Game) (k : Key) (uni : String) (printable : Bool) :
    Game × List (String × ℤ) :=
  if k = .ret then
    let name := if g.player_name = "" then "Anonymous" else g.player_name
    ({ g with player_name := name, state := .GAME_OVER }, [(name, g.score)])
  else if k = .back then
    ({ g with player_name := g.player_name.dropRight 1 }, [])
  else if g.player_name.length < 12 ∧ printable then
    ({ g with player_name := g.player_name ++ uni }, [])
  else (g, [])

/-- `Game.handle_event(e)` (lines 628-682).  Returns the new game and the
list of `send_score_to_server(username, score)` calls fired.  `pg.quit();
sys.exit(0)` ends the process, modelled as leaving the state unchanged with
no further effect.  `θ`/`rnd` feed `launch_ball`/`start_level`. -/
def handleEvent (g : Game) (e : Event) (θ : ℝ) (rnd : Rand) : Game × List (String × ℤ) :=
  match e with
  | .quit => (g, [])
  | .mouseDown button pos =>
      match g.state with
      | .MENU => if button = 1 then (menuClick g pos rnd, []) else (g, [])
      | _ => (g, [])
  | .keyDown k uni printable =>
      match g.state with
      | .MENU => (g, [])  -- ESC exits the process
      | .PLAYING => (handleKeyPlaying g k θ, [])
      | .INPUT_NAME => handleKeyInputName g k uni printable
      | .GAME_OVER =>
          if k = .m then ({ g with state := .MENU }, []) else (g, [])

/-- Run a sequence of events (each with its random draws) through
`handle_event`, counting the `send_score_to_server` calls fired. -/
def runEvents (g : Game) : List (Event × ℝ × Rand) → Game × ℕ
  | [] => (g, 0)
  | (e, θ, rnd) :: rest =>
      let s := handleEvent g e θ rnd
      let t := runEvents s.1 rest
      (t.1, s.2.length + t.2)

/-- A fixed draw stream (used to state determinism of levels 1-4 and for
concrete instances). -/
def randZero : Rand := ⟨fun _ => 0, fun _ => 0⟩

/-- A concrete mid-session state: playing level 1 with one life left, one
live brick far from the ball, and a free ball already below the bottom edge
(`y = 700`). -/
def exampleGameC4 : Game :=
  { state := .PLAYING, unlocked_level := 1, level := 1, lives := 1, score := 0,
    bricks := [⟨⟨42, 80, 56, 24⟩, RED, true⟩], paddle := {},
    ball := ⟨100, 700, 0, 0, 8, false⟩, paused := false,
    player_name := "", final_message := "" }

/-- A concrete terminal-session state: name entry after a game over with
score 50 and an empty name. -/
def exampleGameC6 : Game :=
  { state := .INPUT_NAME, unlocked_level := 1, level := 1, lives := 0, score := 50,
    bricks := [], paddle := {}, ball := freshBall {}, paused := false,
    player_name := "", final_message := "GAME OVER" }

/-- A concrete mid-session state: playing level 1 with a docked ball and a
brick field whose single brick is already dead. -/
def exampleGameC5 : Game :=
  { state := .PLAYING, unlocked_level := 1, level := 1, lives := 3, score := 0,
    bricks := [⟨⟨42, 80, 56, 24⟩, RED, false⟩], paddle := {},
    ball := freshBall {}, paused := false,
    player_name := "", final_message := "" }

/-- The states of the interactive simulation reachable from process start:
the initial menu, and closure under ticks (`Game.update`), input events
(`Game.handle_event`) and ball launches (`Game.launch_ball`). -/
inductive Reach : Game → Prop where
  | init : Reach initGame
  | tick : ∀ g dt left right rnd, Reach g → Reach (g.update dt left right rnd)
  | event : ∀ g e θ rnd, Reach g → Reach (handleEvent g e θ rnd).1
  | launch : ∀ g θ, Reach g → Reach (launchBall g θ)

/-! ## Theorems -/

/-- **C8.** Brick-field generation is a deterministic pure function of the
level index for levels 1-4: level 1 is a full 7 × 12 grid of live bricks;
level 2 includes cell `(row, col)` iff `row + col` is even; level 3 is a
pyramid where row `r` has `12 - 2r` bricks and generation stops when that
count reaches zero (rows 6-8 of the loop produce nothing); level 4 places
bricks exactly in the even columns over the full row extent of its loop
(9 rows). -/
theorem claim_C8_level_layouts :
    (∀ rnd : Rand,
      buildLevel 1 rnd = buildLevel 1 randZero ∧
      buildLevel 2 rnd = buildLevel 2 randZero ∧
      buildLevel 3 rnd = buildLevel 3 randZero ∧
      buildLevel 4 rnd = buildLevel 4 randZero) ∧
    ((buildLevel 1 randZero).length = 84 ∧
      (∀ b ∈ buildLevel 1 randZero, b.alive = true) ∧
      (∀ r : ℕ, r < 7 → ∀ c : ℕ, c < 12 → ∃ b ∈ buildLevel 1 randZero,
        b.rect = cellRect r c ∧ b.alive = true)) ∧
    ((∀ r : ℕ, r < 7 → ∀ c : ℕ, c < 12 →
        ((∃ b ∈ buildLevel 2 randZero, b.rect = cellRect r c) ↔ (r + c) % 2 = 0)) ∧
      (∀ b ∈ buildLevel 2 randZero, ∃ r : ℕ, r < 7 ∧ ∃ c : ℕ, c < 12 ∧
        b.rect = cellRect r c)) ∧
    ((buildLevel 3 randZero).length = 42 ∧
      (∀ r : ℕ, r < 9 →
        ((buildLevel 3 randZero).filter
          (fun b => decide (b.rect.y = TOP_MARGIN + (r : ℤ) * (BRICK_H + BRICK_GAP)))).length
          = 12 - 2 * r)) ∧
    ((∀ b ∈ buildLevel 4 randZero, ∃ c : ℕ, c < 12 ∧ c % 2 = 0 ∧ ∃ r : ℕ, r < 9 ∧
        b.rect = cellRect r c) ∧
      (∀ c : ℕ, c < 12 → c % 2 = 0 → ∀ r : ℕ, r < 9 →
        ∃ b ∈ buildLevel 4 randZero, b.rect = cellRect r c)) := by
  refine ⟨fun rnd => ⟨rfl, rfl, rfl, rfl⟩, ?_, ?_, ?_, ?_⟩
  · exact ⟨by decide, by decide, by decide⟩
  · exact ⟨by decide, by decide⟩
  · exact ⟨by decide, by decide⟩
  · exact ⟨by decide, by decide⟩

/-- Witness for C8: the layout facts applied at concrete rows and columns --
cell (0,1) of the checkerboard level is absent ((0+1) is odd) and pyramid
row 0 holds 12 bricks. -/
theorem claim_C8_witness :
    ¬ (∃ b ∈ buildLevel 2 randZero, b.rect = cellRect 0 1) ∧
    ((buildLevel 3 randZero).filter
      (fun b => decide (b.rect.y = TOP_MARGIN + (0 : ℤ) * (BRICK_H + BRICK_GAP)))).length = 12 := by
  constructor
  · intro h
    have h2 := (claim_C8_level_layouts.2.2.1.1 0 (by decide) 1 (by decide)).mp h
    simp at h2
  · exact claim_C8_level_layouts.2.2.2.1.2 0 (by decide)

/-- `hypot 0 100 = 100`. -/
theorem hypot_zero_hundred : hypot 0 100 = 100 := by
  unfold hypot
  rw [show (0:ℝ)^2 + 100^2 = 100^2 by norm_num, Real.sqrt_sq (by norm_num : (0:ℝ) ≤ 100)]

/-- The rectangle of the default paddle (`x = 400`, `y = 540`, `w = 110`,
`h = 16`) is `Rect(345, 532, 110, 16)`. -/
theorem default_paddle_rect : Paddle.rect {} = (⟨345, 532, 110, 16⟩ : Rect) := by
  unfold Paddle.rect
  norm_num [pyInt, LOGICAL_W, PADDLE_Y, PADDLE_W, PADDLE_H]

/-- **C1.** The claim (and the source comment `# 15°..165° upward`) says the
paddle reflection always departs within `[15°, 165°]` of the horizontal with
a strictly upward (negative) vertical velocity.  The code computes
`angle = radians(150 * rel + 90)`, which for `rel ∈ [-1, 1]` spans
`[-60°, 240°]`: a ball hitting the default paddle at `x = 367`
(`rel = -0.6`, inside the clamp range) while moving down at `vy = 100`
leaves with velocity `(106, 0)` -- exactly horizontal, vertical component
zero, outside `[15°, 165°]`.  This contradicts the claim at a concrete
input. -/
theorem claim_C1_reflection_angle_bug :
    (reflectBallOffPaddle ⟨367, 530, 0, 100, 8, false⟩ {}).vy = 0 ∧
    (reflectBallOffPaddle ⟨367, 530, 0, 100, 8, false⟩ {}).vx = 106 := by
  have hcx : Rect.centerx ⟨345, 532, 110, 16⟩ = 400 := by decide
  have hcond : (0:ℝ) < 100 ∧
      Rect.collidepointF ⟨345, 532, 110, 16⟩ 367 (530 + ((8:ℤ) : ℝ)) := by
    refine ⟨by norm_num, ?_⟩
    unfold Rect.collidepointF Rect.left Rect.right Rect.top Rect.bottom
    norm_num [pyInt]
  unfold reflectBallOffPaddle
  simp only [default_paddle_rect, hcx]
  rw [if_pos hcond]
  constructor
  · show -|min BALL_MAX_SPEED (hypot 0 100 + 6) *
      Real.sin (radians (150 * max (-1) (min 1 ((367 - ((400:ℤ) : ℝ)) / ((PADDLE_W : ℝ) / 2)) ) + 90))| = 0
    norm_num [hypot_zero_hundred, radians, PADDLE_W, BALL_MAX_SPEED]
  · show min BALL_MAX_SPEED (hypot 0 100 + 6) *
      Real.cos (radians (150 * max (-1) (min 1 ((367 - ((400:ℤ) : ℝ)) / ((PADDLE_W : ℝ) / 2)) ) + 90)) = 106
    norm_num [hypot_zero_hundred, radians, PADDLE_W, BALL_MAX_SPEED]

/-- The paddle velocity after the `max/min` clamp never exceeds
`PADDLE_MAX_SPEED` in magnitude. -/
theorem velAfter_abs_le (p : Paddle) (dt : ℝ) (l r : Bool) :
    |p.velAfter dt l r| ≤ PADDLE_MAX_SPEED := by
  simp only [Paddle.velAfter]
  rw [abs_le]
  exact ⟨le_max_left _ _, max_le (by norm_num [PADDLE_MAX_SPEED]) (min_le_left _ _)⟩

/-- **C7.** After every `Paddle.update` call (any `dt ≥ 0`, any flag
combination) the paddle lies fully inside the field
(`0 ≤ x - w/2` and `x + w/2 ≤ LOGICAL_W`), its velocity magnitude is at
most `PADDLE_MAX_SPEED`, and the velocity is zeroed whenever the integrated
(pre-clamp) position would put the paddle in contact past either wall. -/
theorem claim_C7_paddle_invariant (p : Paddle) (dt : ℝ) (left right : Bool)
    (hw : p.w = (PADDLE_W : ℝ)) (hdt : 0 ≤ dt) :
    (0 ≤ (p.update dt left right).x - (p.update dt left right).w / 2 ∧
      (p.update dt left right).x + (p.update dt left right).w / 2 ≤ (LOGICAL_W : ℝ)) ∧
    |(p.update dt left right).vx| ≤ PADDLE_MAX_SPEED ∧
    ((p.rawX dt left right - p.w / 2 < 0 ∨
        (LOGICAL_W : ℝ) < p.rawX dt left right + p.w / 2) →
      (p.update dt left right).vx = 0) := by
  have hv := velAfter_abs_le p dt left right
  rw [abs_le] at hv
  simp only [Paddle.update, hw] at *
  split_ifs with h1 h2 h2
  · exact ⟨⟨by norm_num [PADDLE_W, LOGICAL_W], by norm_num [PADDLE_W, LOGICAL_W]⟩,
      by norm_num [PADDLE_MAX_SPEED], fun _ => rfl⟩
  · exact ⟨⟨by norm_num [PADDLE_W, LOGICAL_W], by norm_num [PADDLE_W, LOGICAL_W]⟩,
      by norm_num [PADDLE_MAX_SPEED], fun _ => rfl⟩
  · exact ⟨⟨by norm_num [PADDLE_W, LOGICAL_W],
      by norm_num [PADDLE_W, LOGICAL_W]⟩,
      by norm_num [PADDLE_MAX_SPEED], fun _ => rfl⟩
  · refine ⟨⟨by norm_num [PADDLE_W] at h1 ⊢; linarith,
      by norm_num [PADDLE_W, LOGICAL_W] at h2 ⊢; linarith⟩, by rw [abs_le]; exact hv, ?_⟩
    rintro (h | h)
    · norm_num [PADDLE_W] at h h1; linarith
    · norm_num [PADDLE_W, LOGICAL_W] at h h2; linarith

/-- Witness for C7: updating the default paddle with `dt = 0` and no input
keeps it inside the field with zero velocity. -/
theorem claim_C7_witness :
    (0 ≤ (Paddle.update {} 0 false false).x - (Paddle.update {} 0 false false).w / 2 ∧
      (Paddle.update {} 0 false false).x + (Paddle.update {} 0 false false).w / 2
        ≤ (LOGICAL_W : ℝ)) ∧
    |(Paddle.update {} 0 false false).vx| ≤ PADDLE_MAX_SPEED ∧
    ((Paddle.rawX {} 0 false false - ({} : Paddle).w / 2 < 0 ∨
        (LOGICAL_W : ℝ) < Paddle.rawX {} 0 false false + ({} : Paddle).w / 2) →
      (Paddle.update {} 0 false false).vx = 0) :=
  claim_C7_paddle_invariant {} 0 false false (by norm_num) le_rfl

/-! Helper lemmas about `speedUp` and `resolveImpact`. -/

theorem hypot_nonneg (x y : ℝ) : 0 ≤ hypot x y := Real.sqrt_nonneg _

theorem speed_min_pos (x y : ℝ) :
    0 < min BALL_MAX_SPEED (hypot x y + BALL_SPEED_INC_ON_HIT) := by
  apply lt_min
  · norm_num [BALL_MAX_SPEED]
  · have := hypot_nonneg x y
    norm_num [BALL_SPEED_INC_ON_HIT]
    linarith

/-- The length of the vector `(cos a * s, sin a * s)` is `s` for `s ≥ 0`. -/
theorem hypot_cos_sin (a s : ℝ) (hs : 0 ≤ s) :
    hypot (Real.cos a * s) (Real.sin a * s) = s := by
  unfold hypot
  rw [show (Real.cos a * s) ^ 2 + (Real.sin a * s) ^ 2
      = (Real.sin a ^ 2 + Real.cos a ^ 2) * s ^ 2 by ring,
    Real.sin_sq_add_cos_sq, one_mul, Real.sqrt_sq hs]

/-- The re-derivation step sets the speed to exactly
`min(BALL_MAX_SPEED, hypot(vx, vy) + BALL_SPEED_INC_ON_HIT)`. -/
theorem speedUp_hypot (c : Ball) :
    hypot (speedUp c).vx (speedUp c).vy
      = min BALL_MAX_SPEED (hypot c.vx c.vy + BALL_SPEED_INC_ON_HIT) := by
  simp only [speedUp]
  exact hypot_cos_sin _ _ (speed_min_pos c.vx c.vy).le

theorem speedUp_nonzero_aux (c : Ball) (h : ¬(c.vx = 0 ∧ c.vy = 0)) :
    (⟨c.vx, c.vy⟩ : ℂ) ≠ 0 := by
  simpa [Complex.ext_iff] using h

/-- The re-derivation step preserves the sign of the horizontal velocity
component (it scales the velocity vector by a positive factor). -/
theorem speedUp_vx_nonpos (c : Ball) (h : ¬(c.vx = 0 ∧ c.vy = 0)) (hvx : c.vx ≤ 0) :
    (speedUp c).vx ≤ 0 := by
  have hz := speedUp_nonzero_aux c h
  have habs : 0 < Complex.abs ⟨c.vx, c.vy⟩ := Complex.abs.pos hz
  have hs := speed_min_pos c.vx c.vy
  simp only [speedUp, atan2]
  rw [Complex.cos_arg hz]
  show c.vx / Complex.abs ⟨c.vx, c.vy⟩
    * min BALL_MAX_SPEED (hypot c.vx c.vy + BALL_SPEED_INC_ON_HIT) ≤ 0
  rw [div_mul_eq_mul_div, mul_div_assoc]
  exact mul_nonpos_iff.mpr (Or.inr ⟨hvx, div_nonneg hs.le habs.le⟩)

theorem speedUp_vx_nonneg (c : Ball) (h : ¬(c.vx = 0 ∧ c.vy = 0)) (hvx : 0 ≤ c.vx) :
    0 ≤ (speedUp c).vx := by
  have hz := speedUp_nonzero_aux c h
  have habs : 0 < Complex.abs ⟨c.vx, c.vy⟩ := Complex.abs.pos hz
  have hs := speed_min_pos c.vx c.vy
  simp only [speedUp, atan2]
  rw [Complex.cos_arg hz]
  show 0 ≤ c.vx / Complex.abs ⟨c.vx, c.vy⟩
    * min BALL_MAX_SPEED (hypot c.vx c.vy + BALL_SPEED_INC_ON_HIT)
  rw [div_mul_eq_mul_div, mul_div_assoc]
  exact mul_nonneg hvx (div_nonneg hs.le habs.le)

theorem speedUp_vy_nonpos (c : Ball) (hvy : c.vy ≤ 0) : (speedUp c).vy ≤ 0 := by
  have habs : 0 ≤ Complex.abs ⟨c.vx, c.vy⟩ := Complex.abs.nonneg _
  have hs := speed_min_pos c.vx c.vy
  simp only [speedUp, atan2]
  rw [Complex.sin_arg]
  show c.vy / Complex.abs ⟨c.vx, c.vy⟩
    * min BALL_MAX_SPEED (hypot c.vx c.vy + BALL_SPEED_INC_ON_HIT) ≤ 0
  rw [div_mul_eq_mul_div, mul_div_assoc]
  exact mul_nonpos_iff.mpr (Or.inr ⟨hvy, div_nonneg hs.le habs⟩)

theorem speedUp_vy_nonneg (c : Ball) (hvy : 0 ≤ c.vy) : 0 ≤ (speedUp c).vy := by
  have habs : 0 ≤ Complex.abs ⟨c.vx, c.vy⟩ := Complex.abs.nonneg _
  have hs := speed_min_pos c.vx c.vy
  simp only [speedUp, atan2]
  rw [Complex.sin_arg]
  show 0 ≤ c.vy / Complex.abs ⟨c.vx, c.vy⟩
    * min BALL_MAX_SPEED (hypot c.vx c.vy + BALL_SPEED_INC_ON_HIT)
  rw [div_mul_eq_mul_div, mul_div_assoc]
  exact mul_nonneg hvy (div_nonneg hs.le habs)

theorem hypot_neg_abs_left (x y : ℝ) : hypot (-|x|) y = hypot x y := by
  unfold hypot; rw [neg_sq, sq_abs]

theorem hypot_abs_left (x y : ℝ) : hypot |x| y = hypot x y := by
  unfold hypot; rw [sq_abs]

theorem hypot_neg_abs_right (x y : ℝ) : hypot x (-|y|) = hypot x y := by
  unfold hypot; rw [neg_sq, sq_abs]

theorem hypot_abs_right (x y : ℝ) : hypot x |y| = hypot x y := by
  unfold hypot; rw [sq_abs]

/-- The snap-and-flip step never changes the ball's speed. -/
theorem resolveImpact_hypot (ball : Ball) (b : Brick) :
    hypot (resolveImpact ball b).vx (resolveImpact ball b).vy
      = hypot ball.vx ball.vy := by
  simp only [resolveImpact]
  split_ifs <;>
    simp only [hypot_neg_abs_left, hypot_abs_left, hypot_neg_abs_right, hypot_abs_right]

/-- The snap-and-flip step maps a nonzero velocity to a nonzero velocity. -/
theorem resolveImpact_nonzero (ball : Ball) (b : Brick)
    (hv : ¬(ball.vx = 0 ∧ ball.vy = 0)) :
    ¬((resolveImpact ball b).vx = 0 ∧ (resolveImpact ball b).vy = 0) := by
  simp only [resolveImpact]
  split_ifs <;> simpa [neg_eq_zero, abs_eq_zero] using hv

/-- Each loop iteration either destroys a live brick (reporting a hit) or
leaves the ball and brick untouched. -/
theorem brickStep_spec (ball : Ball) (b : Brick) :
    ((brickStep ball b).2.2 = true ∧ (brickStep ball b).2.1.alive = false ∧
      b.alive = true) ∨
    ((brickStep ball b).2.2 = false ∧ (brickStep ball b).2.1 = b ∧
      (brickStep ball b).1 = ball) := by
  unfold brickStep
  split_ifs with h1 h2
  · left
    refine ⟨rfl, rfl, ?_⟩
    simpa using h1
  · right; exact ⟨rfl, rfl, rfl⟩
  · right; exact ⟨rfl, rfl, rfl⟩

/-- `ball_brick_collision` keeps the brick list's length and returns exactly
the number of bricks newly marked dead. -/
theorem ballBrickCollision_count (ball : Ball) (bricks : List Brick) :
    (ballBrickCollision ball bricks).2.1.countP (fun b => !b.alive)
      = bricks.countP (fun b => !b.alive) + (ballBrickCollision ball bricks).2.2 ∧
    (ballBrickCollision ball bricks).2.1.length = bricks.length := by
  induction bricks generalizing ball with
  | nil => simp [ballBrickCollision]
  | cons b bs ih =>
      have hstep := brickStep_spec ball b
      unfold ballBrickCollision
      rcases hstep with ⟨hhit, halive, hwas⟩ | ⟨hmiss, hbrick, hball⟩
      · have hcount := (ih (brickStep ball b).1).1
        have hlen := (ih (brickStep ball b).1).2
        simp only [List.countP_cons, List.length_cons, hhit, halive, hwas, hcount, hlen]
        simp [Nat.add_comm, Nat.add_assoc, Nat.add_left_comm]
      · have hcount := (ih (brickStep ball b).1).1
        have hlen := (ih (brickStep ball b).1).2
        simp only [List.countP_cons, List.length_cons, hmiss, hbrick, hcount, hlen]
        simp [Nat.add_comm, Nat.add_assoc, Nat.add_left_comm]

/-- **C2.** The brick-collision resolution: dead bricks are skipped
untouched; a live brick whose box expanded by the ball radius contains the
ball center is resolved horizontally exactly when `minx < miny` (ties
resolve vertically), snapping the ball just outside the nearer edge with
the corresponding velocity component pointing away from the brick; the
brick is marked dead; the ball speed becomes
`min(BALL_MAX_SPEED, previous speed + BALL_SPEED_INC_ON_HIT)`; and the
function returns the number of bricks destroyed (list length preserved,
each brick resolved independently). -/
theorem claim_C2_brick_collision :
    (∀ (ball : Ball) (b : Brick), b.alive = false →
      brickStep ball b = (ball, b, false)) ∧
    (∀ (ball : Ball) (b : Brick), b.alive = true →
      (b.rect.inflate (ball.r * 2) (ball.r * 2)).collidepointF ball.x ball.y →
      ¬(ball.vx = 0 ∧ ball.vy = 0) →
      (brickStep ball b).2.1.alive = false ∧ (brickStep ball b).2.2 = true ∧
      (min |ball.x - (b.rect.left : ℝ)| |(b.rect.right : ℝ) - ball.x|
          < min |ball.y - (b.rect.top : ℝ)| |(b.rect.bottom : ℝ) - ball.y| →
        (brickStep ball b).1.y = ball.y ∧
        (|ball.x - (b.rect.left : ℝ)| < |(b.rect.right : ℝ) - ball.x| →
          (brickStep ball b).1.x = (b.rect.left : ℝ) - (ball.r : ℝ) ∧
          (brickStep ball b).1.vx ≤ 0) ∧
        (¬ |ball.x - (b.rect.left : ℝ)| < |(b.rect.right : ℝ) - ball.x| →
          (brickStep ball b).1.x = (b.rect.right : ℝ) + (ball.r : ℝ) ∧
          0 ≤ (brickStep ball b).1.vx)) ∧
      (¬ min |ball.x - (b.rect.left : ℝ)| |(b.rect.right : ℝ) - ball.x|
          < min |ball.y - (b.rect.top : ℝ)| |(b.rect.bottom : ℝ) - ball.y| →
        (brickStep ball b).1.x = ball.x ∧
        (|ball.y - (b.rect.top : ℝ)| < |(b.rect.bottom : ℝ) - ball.y| →
          (brickStep ball b).1.y = (b.rect.top : ℝ) - (ball.r : ℝ) ∧
          (brickStep ball b).1.vy ≤ 0) ∧
        (¬ |ball.y - (b.rect.top : ℝ)| < |(b.rect.bottom : ℝ) - ball.y| →
          (brickStep ball b).1.y = (b.rect.bottom : ℝ) + (ball.r : ℝ) ∧
          0 ≤ (brickStep ball b).1.vy)) ∧
      hypot (brickStep ball b).1.vx (brickStep ball b).1.vy
        = min BALL_MAX_SPEED (hypot ball.vx ball.vy + BALL_SPEED_INC_ON_HIT)) ∧
    (∀ (ball : Ball) (bricks : List Brick),
      (ballBrickCollision ball bricks).2.1.countP (fun b => !b.alive)
        = bricks.countP (fun b => !b.alive) + (ballBrickCollision ball bricks).2.2 ∧
      (ballBrickCollision ball bricks).2.1.length = bricks.length) := by
  refine ⟨?_, ?_, ballBrickCollision_count⟩
  · intro ball b hdead
    unfold brickStep
    rw [if_pos (show ¬ b.alive = true by simp [hdead])]
  · intro ball b halive hhit hv
    have hstep : brickStep ball b
        = (speedUp (resolveImpact ball b), { b with alive := false }, true) := by
      unfold brickStep
      rw [if_neg (by simp [halive]), if_pos hhit]
    rw [hstep]
    refine ⟨rfl, rfl, ?_, ?_, ?_⟩
    · intro hmin
      by_cases hx : |ball.x - (b.rect.left : ℝ)| < |(b.rect.right : ℝ) - ball.x|
      · have hres : resolveImpact ball b
            = { ball with x := (b.rect.left : ℝ) - (ball.r : ℝ), vx := -|ball.vx| } := by
          simp only [resolveImpact]
          rw [if_pos hmin, if_pos hx]
        rw [hres]
        refine ⟨rfl, fun _ => ⟨rfl, ?_⟩, fun hc => absurd hx hc⟩
        apply speedUp_vx_nonpos
        · simpa [neg_eq_zero, abs_eq_zero] using hv
        · exact neg_nonpos.mpr (abs_nonneg _)
      · have hres : resolveImpact ball b
            = { ball with x := (b.rect.right : ℝ) + (ball.r : ℝ), vx := |ball.vx| } := by
          simp only [resolveImpact]
          rw [if_pos hmin, if_neg hx]
        rw [hres]
        refine ⟨rfl, fun hc => absurd hc hx, fun _ => ⟨rfl, ?_⟩⟩
        apply speedUp_vx_nonneg
        · simpa [abs_eq_zero] using hv
        · exact abs_nonneg _
    · intro hmin
      by_cases hy : |ball.y - (b.rect.top : ℝ)| < |(b.rect.bottom : ℝ) - ball.y|
      · have hres : resolveImpact ball b
            = { ball with y := (b.rect.top : ℝ) - (ball.r : ℝ), vy := -|ball.vy| } := by
          simp only [resolveImpact]
          rw [if_neg hmin, if_pos hy]
        rw [hres]
        refine ⟨rfl, fun _ => ⟨rfl, ?_⟩, fun hc => absurd hy hc⟩
        exact speedUp_vy_nonpos _ (neg_nonpos.mpr (abs_nonneg _))
      · have hres : resolveImpact ball b
            = { ball with y := (b.rect.bottom : ℝ) + (ball.r : ℝ), vy := |ball.vy| } := by
          simp only [resolveImpact]
          rw [if_neg hmin, if_neg hy]
        rw [hres]
        refine ⟨rfl, fun hc => absurd hc hy, fun _ => ⟨rfl, ?_⟩⟩
        exact speedUp_vy_nonneg _ (abs_nonneg _)
    · rw [speedUp_hypot, resolveImpact_hypot]

/-- Witness for C2: a ball at `(40, 92)` with velocity `(3, 4)` hitting the
live brick `Rect(42, 80, 56, 24)` close to its left edge is resolved
horizontally: the brick dies, the ball is snapped to `x = 34`, its
horizontal velocity points away (left), and its speed becomes
`min(820, 5 + 4) = 9`. -/
theorem claim_C2_witness :
    (brickStep ⟨40, 92, 3, 4, 8, false⟩ ⟨⟨42, 80, 56, 24⟩, RED, true⟩).2.1.alive = false ∧
    (brickStep ⟨40, 92, 3, 4, 8, false⟩ ⟨⟨42, 80, 56, 24⟩, RED, true⟩).1.x = 34 ∧
    (brickStep ⟨40, 92, 3, 4, 8, false⟩ ⟨⟨42, 80, 56, 24⟩, RED, true⟩).1.vx ≤ 0 ∧
    hypot (brickStep ⟨40, 92, 3, 4, 8, false⟩ ⟨⟨42, 80, 56, 24⟩, RED, true⟩).1.vx
      (brickStep ⟨40, 92, 3, 4, 8, false⟩ ⟨⟨42, 80, 56, 24⟩, RED, true⟩).1.vy = 9 := by
  have hcol : ((⟨42, 80, 56, 24⟩ : Rect).inflate 16 16).collidepointF 40 92 := by
    have hinf : (⟨42, 80, 56, 24⟩ : Rect).inflate 16 16 = ⟨34, 72, 72, 40⟩ := by decide
    rw [hinf]
    unfold Rect.collidepointF Rect.left Rect.right Rect.top Rect.bottom
    norm_num [pyInt]
  have h := claim_C2_brick_collision.2.1 ⟨40, 92, 3, 4, 8, false⟩
    ⟨⟨42, 80, 56, 24⟩, RED, true⟩ rfl hcol (by norm_num)
  obtain ⟨ha, hh, hhor, hver, hsp⟩ := h
  have hL := (hhor (by norm_num [Rect.left, Rect.right, Rect.top, Rect.bottom])).2.1
    (by norm_num [Rect.left, Rect.right])
  have h5 : hypot 3 4 = 5 := by
    unfold hypot
    rw [show (3:ℝ) ^ 2 + 4 ^ 2 = 5 ^ 2 by norm_num,
      Real.sqrt_sq (by norm_num : (0:ℝ) ≤ 5)]
  refine ⟨ha, ?_, hL.2, ?_⟩
  · rw [hL.1]; norm_num [Rect.left]
  · exact hsp.trans (by norm_num [h5, BALL_MAX_SPEED, BALL_SPEED_INC_ON_HIT])

/-! Speed-bound preservation lemmas for C3. -/

theorem hypot_zero : hypot 0 0 = 0 := by
  simp [hypot]

/-- The length of the vector `(s * cos a, s * sin a)` is `s` for `s ≥ 0`. -/
theorem hypot_mul_cos_sin (a s : ℝ) (hs : 0 ≤ s) :
    hypot (s * Real.cos a) (s * Real.sin a) = s := by
  unfold hypot
  rw [show (s * Real.cos a) ^ 2 + (s * Real.sin a) ^ 2
      = (Real.sin a ^ 2 + Real.cos a ^ 2) * s ^ 2 by ring,
    Real.sin_sq_add_cos_sq, one_mul, Real.sqrt_sq hs]

/-- Free-flight integration with wall reflection never changes the speed. -/
theorem ballUpdate_hypot (b : Ball) (dt : ℝ) :
    hypot (b.update dt).vx (b.update dt).vy = hypot b.vx b.vy := by
  simp only [Ball.update]
  split_ifs <;>
    simp only [hypot_neg_abs_left, hypot_abs_left, hypot_neg_abs_right, hypot_abs_right]

/-- Paddle reflection keeps the speed within `BALL_MAX_SPEED`. -/
theorem reflect_hypot_le (ball : Ball) (paddle : Paddle)
    (h : hypot ball.vx ball.vy ≤ BALL_MAX_SPEED) :
    hypot (reflectBallOffPaddle ball paddle).vx (reflectBallOffPaddle ball paddle).vy
      ≤ BALL_MAX_SPEED := by
  simp only [reflectBallOffPaddle]
  split_ifs with hc
  · have hs : 0 ≤ min BALL_MAX_SPEED (hypot ball.vx ball.vy + 6) := by
      refine le_min (by norm_num [BALL_MAX_SPEED]) ?_
      have := hypot_nonneg ball.vx ball.vy
      linarith
    rw [hypot_neg_abs_right, hypot_mul_cos_sin _ _ hs]
    exact min_le_left _ _
  · exact h

/-- One brick-loop iteration keeps the speed within `BALL_MAX_SPEED`. -/
theorem brickStep_hypot_le (ball : Ball) (b : Brick)
    (h : hypot ball.vx ball.vy ≤ BALL_MAX_SPEED) :
    hypot (brickStep ball b).1.vx (brickStep ball b).1.vy ≤ BALL_MAX_SPEED := by
  unfold brickStep
  split_ifs
  all_goals
    first
      | exact h
      | (show hypot (speedUp (resolveImpact ball b)).vx
            (speedUp (resolveImpact ball b)).vy ≤ BALL_MAX_SPEED
         rw [speedUp_hypot, resolveImpact_hypot]
         exact min_le_left _ _)

/-- The whole brick pass keeps the speed within `BALL_MAX_SPEED`. -/
theorem ballBrickCollision_hypot_le (ball : Ball) (bricks : List Brick)
    (h : hypot ball.vx ball.vy ≤ BALL_MAX_SPEED) :
    hypot (ballBrickCollision ball bricks).1.vx (ballBrickCollision ball bricks).1.vy
      ≤ BALL_MAX_SPEED := by
  induction bricks generalizing ball with
  | nil => exact h
  | cons b bs ih =>
      show hypot (ballBrickCollision (brickStep ball b).1 bs).1.vx
        (ballBrickCollision (brickStep ball b).1 bs).1.vy ≤ BALL_MAX_SPEED
      exact ih _ (brickStep_hypot_le ball b h)

/-- The physics phase of a tick keeps the speed within `BALL_MAX_SPEED`. -/
theorem physPhase_hypot_le (g : Game) (dt : ℝ) (l r : Bool)
    (h : hypot g.ball.vx g.ball.vy ≤ BALL_MAX_SPEED) :
    hypot (physPhase g dt l r).ball.vx (physPhase g dt l r).ball.vy
      ≤ BALL_MAX_SPEED := by
  simp only [physPhase]
  apply ballBrickCollision_hypot_le
  apply reflect_hypot_le
  split_ifs with hs
  · exact h
  · rw [ballUpdate_hypot]; exact h

theorem loseLife_hypot_le (g : Game) :
    hypot (loseLife g).ball.vx (loseLife g).ball.vy ≤ BALL_MAX_SPEED := by
  simp only [loseLife]
  split_ifs <;>
    simp [freshBall, hypot_zero, BALL_MAX_SPEED]

theorem levelComplete_hypot_le (g : Game) (rnd : Rand) :
    hypot (levelComplete g rnd).ball.vx (levelComplete g rnd).ball.vy
      ≤ BALL_MAX_SPEED := by
  simp only [levelComplete]
  split_ifs <;>
    simp [freshBall, hypot_zero, BALL_MAX_SPEED]

theorem updatePlaying_hypot_le (g : Game) (dt : ℝ) (l r : Bool) (rnd : Rand)
    (h : hypot g.ball.vx g.ball.vy ≤ BALL_MAX_SPEED) :
    hypot (updatePlaying g dt l r rnd).ball.vx (updatePlaying g dt l r rnd).ball.vy
      ≤ BALL_MAX_SPEED := by
  simp only [updatePlaying]
  by_cases h1 : (physPhase g dt l r).ball.stuck = false ∧
      (LOGICAL_H : ℝ) < (physPhase g dt l r).ball.y - ((physPhase g dt l r).ball.r : ℝ)
  · rw [if_pos h1]
    by_cases h2 : ((loseLife (physPhase g dt l r)).bricks.all (fun b => !b.alive)) = true
    · rw [if_pos h2]; exact levelComplete_hypot_le _ _
    · rw [if_neg h2]; exact loseLife_hypot_le _
  · rw [if_neg h1]
    by_cases h2 : ((physPhase g dt l r).bricks.all (fun b => !b.alive)) = true
    · rw [if_pos h2]; exact levelComplete_hypot_le _ _
    · rw [if_neg h2]; exact physPhase_hypot_le g dt l r h

theorem update_hypot_le (g : Game) (dt : ℝ) (l r : Bool) (rnd : Rand)
    (h : hypot g.ball.vx g.ball.vy ≤ BALL_MAX_SPEED) :
    hypot (g.update dt l r rnd).ball.vx (g.update dt l r rnd).ball.vy
      ≤ BALL_MAX_SPEED := by
  simp only [Game.update]
  split_ifs
  all_goals
    first
      | exact h
      | exact updatePlaying_hypot_le g dt l r rnd h

theorem launchBall_hypot_le (g : Game) (θ : ℝ)
    (h : hypot g.ball.vx g.ball.vy ≤ BALL_MAX_SPEED) :
    hypot (launchBall g θ).ball.vx (launchBall g θ).ball.vy ≤ BALL_MAX_SPEED := by
  unfold launchBall
  split_ifs
  all_goals
    first
      | exact h
      | (show hypot (BALL_SPEED * Real.cos θ) (-|BALL_SPEED * Real.sin θ|) ≤ BALL_MAX_SPEED
         rw [hypot_neg_abs_right, hypot_mul_cos_sin _ _ (by norm_num [BALL_SPEED])]
         norm_num [BALL_SPEED, BALL_MAX_SPEED])

theorem startLevel_hypot_le (g : Game) (lvl : ℤ) (rnd : Rand) :
    hypot (startLevel g lvl rnd).ball.vx (startLevel g lvl rnd).ball.vy
      ≤ BALL_MAX_SPEED := by
  simp [startLevel, freshBall, hypot_zero, BALL_MAX_SPEED]

theorem menuClickStep_hypot_le (pos : ℤ × ℤ) (rnd : Rand) (g : Game) (i : ℕ)
    (h : hypot g.ball.vx g.ball.vy ≤ BALL_MAX_SPEED) :
    hypot (menuClickStep pos rnd g i).ball.vx (menuClickStep pos rnd g i).ball.vy
      ≤ BALL_MAX_SPEED := by
  unfold menuClickStep
  split_ifs
  · exact startLevel_hypot_le g _ rnd
  · exact h

theorem menuClick_hypot_le (g : Game) (pos : ℤ × ℤ) (rnd : Rand)
    (h : hypot g.ball.vx g.ball.vy ≤ BALL_MAX_SPEED) :
    hypot (menuClick g pos rnd).ball.vx (menuClick g pos rnd).ball.vy
      ≤ BALL_MAX_SPEED := by
  unfold menuClick
  generalize List.range 5 = l
  induction l generalizing g with
  | nil => exact h
  | cons a l ih =>
      rw [List.foldl_cons]
      exact ih _ (menuClickStep_hypot_le pos rnd g a h)

/-- The F10 cheat never touches the ball. -/
theorem cheat_ball (g : Game) : (cheat g).ball = g.ball := by
  unfold cheat
  rcases g.bricks with _ | ⟨b, bs⟩ <;> rfl

theorem handleKeyPlaying_hypot_le (g : Game) (k : Key) (θ : ℝ)
    (h : hypot g.ball.vx g.ball.vy ≤ BALL_MAX_SPEED) :
    hypot (handleKeyPlaying g k θ).ball.vx (handleKeyPlaying g k θ).ball.vy
      ≤ BALL_MAX_SPEED := by
  rcases k <;>
    first
      | exact h
      | exact launchBall_hypot_le g θ h
      | (show hypot (cheat g).ball.vx (cheat g).ball.vy ≤ BALL_MAX_SPEED
         rw [cheat_ball]; exact h)

/-- Name entry never touches the ball. -/
theorem handleKeyInputName_ball (g : Game) (k : Key) (uni : String) (pr : Bool) :
    (handleKeyInputName g k uni pr).1.ball = g.ball := by
  simp only [handleKeyInputName]
  split_ifs <;> rfl

theorem handleEvent_hypot_le (g : Game) (e : Event) (θ : ℝ) (rnd : Rand)
    (h : hypot g.ball.vx g.ball.vy ≤ BALL_MAX_SPEED) :
    hypot (handleEvent g e θ rnd).1.ball.vx (handleEvent g e θ rnd).1.ball.vy
      ≤ BALL_MAX_SPEED := by
  rcases e with _ | ⟨button, pos⟩ | ⟨k, uni, printable⟩
  · exact h
  · rcases hst : g.state <;> simp only [handleEvent, hst]
    · split_ifs
      · exact menuClick_hypot_le g pos rnd h
      · exact h
    · exact h
    · exact h
    · exact h
  · rcases hst : g.state <;> simp only [handleEvent, hst]
    · exact h
    · exact handleKeyPlaying_hypot_le g k θ h
    · rw [handleKeyInputName_ball]; exact h
    · split_ifs <;> exact h

/-- Every reachable game state has ball speed at most `BALL_MAX_SPEED`. -/
theorem reach_hypot_le (g : Game) (hg : Reach g) :
    hypot g.ball.vx g.ball.vy ≤ BALL_MAX_SPEED := by
  induction hg with
  | init => simp [initGame, freshBall, hypot_zero, BALL_MAX_SPEED]
  | tick g dt l r rnd hg ih => exact update_hypot_le g dt l r rnd ih
  | event g e θ rnd hg ih => exact handleEvent_hypot_le g e θ rnd ih
  | launch g θ hg ih => exact launchBall_hypot_le g θ ih

/-- **C3.** In every reachable state of the per-tick simulation in which the
ball is free (not docked), the ball's speed `hypot(vx, vy)` is at most
`BALL_MAX_SPEED`; reachability is closed under ball launch, per-tick updates
(free flight with wall reflection, paddle reflection, brick-collision speed
bumps) and event handling. -/
theorem claim_C3_ball_speed_bounded (g : Game) (hg : Reach g)
    (hfree : g.ball.stuck = false) :
    hypot g.ball.vx g.ball.vy ≤ BALL_MAX_SPEED :=
  reach_hypot_le g hg

/-- Witness for C3: launching the ball from the initial game state gives a
free ball whose speed is within the bound. -/
theorem claim_C3_witness :
    (launchBall initGame 0).ball.stuck = false ∧
    hypot (launchBall initGame 0).ball.vx (launchBall initGame 0).ball.vy
      ≤ BALL_MAX_SPEED := by
  have h1 : (launchBall initGame 0).ball.stuck = false := by
    simp [launchBall, initGame, freshBall]
  exact ⟨h1, claim_C3_ball_speed_bounded _ (Reach.launch initGame 0 Reach.init) h1⟩

/-! Lemmas for the state-machine claims C4 and C5. -/

/-- In a playing, unpaused tick, `Game.update` runs the `STATE_PLAYING`
body. -/
theorem update_eq_updatePlaying (g : Game) (dt : ℝ) (l r : Bool) (rnd : Rand)
    (hst : g.state = .PLAYING) (hp : g.paused = false) :
    g.update dt l r rnd = updatePlaying g dt l r rnd := by
  unfold Game.update
  rw [if_neg (by simp [hst]), if_neg (by simp [hp])]

/-- `lose_life` does not touch the brick field. -/
theorem loseLife_bricks (g : Game) : (loseLife g).bricks = g.bricks := by
  simp only [loseLife]
  split_ifs <;> rfl

/-- `lose_life` always decrements `lives` by one. -/
theorem loseLife_lives (g : Game) : (loseLife g).lives = g.lives - 1 := by
  simp only [loseLife]
  split_ifs <;> rfl

/-- `level_complete` raises `unlocked_level` to `level + 1` exactly when that
is higher (the high-water mark is never lowered). -/
theorem levelComplete_unlocked (g : Game) (rnd : Rand) :
    (levelComplete g rnd).unlocked_level = max g.unlocked_level (g.level + 1) := by
  simp only [levelComplete]
  split_ifs <;>
    first
      | (show g.level + 1 = max g.unlocked_level (g.level + 1)
         exact (max_eq_right (by omega)).symm)
      | (show g.unlocked_level = max g.unlocked_level (g.level + 1)
         exact (max_eq_left (by omega)).symm)

/-- **C4.** In a playing, unpaused tick whose physics phase leaves the ball
free and below the bottom edge (`y - r > LOGICAL_H`) with at least one brick
still alive: lives decrement by one; if lives reach zero the state becomes
`INPUT_NAME` with message "GAME OVER" and the ball is docked with zero
velocity; otherwise a fresh docked ball is spawned at the paddle while the
level and the brick field are unchanged. -/
theorem claim_C4_bottom_edge_life_loss (g : Game) (dt : ℝ) (l r : Bool) (rnd : Rand)
    (hst : g.state = .PLAYING) (hp : g.paused = false)
    (hfree : (physPhase g dt l r).ball.stuck = false)
    (hfall : (LOGICAL_H : ℝ) < (physPhase g dt l r).ball.y - ((physPhase g dt l r).ball.r : ℝ))
    (halive : ∃ b ∈ (physPhase g dt l r).bricks, b.alive = true) :
    (g.update dt l r rnd).lives = g.lives - 1 ∧
    (g.lives = 1 →
      (g.update dt l r rnd).state = .INPUT_NAME ∧
      (g.update dt l r rnd).final_message = "GAME OVER" ∧
      (g.update dt l r rnd).ball.stuck = true ∧
      (g.update dt l r rnd).ball.vx = 0 ∧ (g.update dt l r rnd).ball.vy = 0) ∧
    (g.lives ≠ 1 →
      (g.update dt l r rnd).ball = freshBall (physPhase g dt l r).paddle ∧
      (g.update dt l r rnd).state = .PLAYING ∧
      (g.update dt l r rnd).level = g.level ∧
      (g.update dt l r rnd).bricks = (physPhase g dt l r).bricks) := by
  have hupd : g.update dt l r rnd = loseLife (physPhase g dt l r) := by
    rw [update_eq_updatePlaying g dt l r rnd hst hp]
    simp only [updatePlaying]
    have hcond1 : (physPhase g dt l r).ball.stuck = false ∧
        (LOGICAL_H : ℝ) < (physPhase g dt l r).ball.y - ((physPhase g dt l r).ball.r : ℝ) :=
      ⟨hfree, hfall⟩
    rw [if_pos hcond1]
    have hall : ¬ ((loseLife (physPhase g dt l r)).bricks.all (fun b => !b.alive)) = true := by
      rw [loseLife_bricks]
      obtain ⟨b, hb, hbal⟩ := halive
      intro hcontra
      have := List.all_eq_true.mp hcontra b hb
      simp [hbal] at this
    rw [if_neg hall]
  rw [hupd]
  refine ⟨loseLife_lives _, ?_, ?_⟩
  · intro h1
    have hz : (physPhase g dt l r).lives - 1 = 0 := by
      show g.lives - 1 = 0
      omega
    simp only [loseLife]
    rw [if_pos hz]
    exact ⟨rfl, rfl, rfl, rfl, rfl⟩
  · intro h1
    have hz : ¬ (physPhase g dt l r).lives - 1 = 0 := by
      show ¬ g.lives - 1 = 0
      omega
    simp only [loseLife]
    rw [if_neg hz]
    exact ⟨rfl, hst, rfl, rfl⟩

/-- **C5.** In a playing, unpaused tick whose physics phase ends with every
brick dead and the ball not lost: if a next level exists (`level + 1 ≤ 5`)
the level index increments, lives increase by exactly one, the brick field
is regenerated for the new level, a fresh docked ball is placed at the
paddle, and `unlocked_level` becomes the maximum of its old value and the
new level (never lowered); otherwise the state becomes `INPUT_NAME` with
message "VICTORY!". -/
theorem claim_C5_level_complete (g : Game) (dt : ℝ) (l r : Bool) (rnd : Rand)
    (hst : g.state = .PLAYING) (hp : g.paused = false)
    (hdead : ∀ b ∈ (physPhase g dt l r).bricks, b.alive = false)
    (hnofall : ¬((physPhase g dt l r).ball.stuck = false ∧
      (LOGICAL_H : ℝ) < (physPhase g dt l r).ball.y - ((physPhase g dt l r).ball.r : ℝ))) :
    (g.level + 1 ≤ 5 →
      (g.update dt l r rnd).level = g.level + 1 ∧
      (g.update dt l r rnd).lives = g.lives + 1 ∧
      (g.update dt l r rnd).bricks = buildLevel (g.level + 1) rnd ∧
      (g.update dt l r rnd).ball = freshBall (physPhase g dt l r).paddle ∧
      (g.update dt l r rnd).ball.stuck = true ∧
      (g.update dt l r rnd).state = .PLAYING) ∧
    (5 < g.level + 1 →
      (g.update dt l r rnd).state = .INPUT_NAME ∧
      (g.update dt l r rnd).final_message = "VICTORY!" ∧
      (g.update dt l r rnd).level = g.level) ∧
    (g.update dt l r rnd).unlocked_level = max g.unlocked_level (g.level + 1) ∧
    g.unlocked_level ≤ (g.update dt l r rnd).unlocked_level := by
  have hupd : g.update dt l r rnd = levelComplete (physPhase g dt l r) rnd := by
    rw [update_eq_updatePlaying g dt l r rnd hst hp]
    simp only [updatePlaying]
    rw [if_neg hnofall]
    have hall : ((physPhase g dt l r).bricks.all (fun b => !b.alive)) = true :=
      List.all_eq_true.mpr fun b hb => by simp [hdead b hb]
    rw [if_pos hall]
  rw [hupd]
  refine ⟨?_, ?_, ?_, ?_⟩
  · intro h5
    simp only [levelComplete]
    rw [if_pos (show (physPhase g dt l r).level + 1 ≤ 5 from h5)]
    exact ⟨rfl, rfl, rfl, rfl, rfl, hst⟩
  · intro h5
    have hlev : (physPhase g dt l r).level = g.level := rfl
    have h5n : ¬ (physPhase g dt l r).level + 1 ≤ 5 := by
      rw [hlev]; omega
    simp only [levelComplete]
    rw [if_neg h5n]
    exact ⟨rfl, rfl, rfl⟩
  · exact levelComplete_unlocked _ _
  · rw [levelComplete_unlocked]
    exact le_max_left _ _

/-- With `dt = 0` and no input, the physics phase of `exampleGameC4` is the
identity: the paddle does not move, the free ball stays at `(100, 700)`,
the paddle reflection does not trigger (the ball is not moving down onto
the paddle) and the single live brick is far from the ball. -/
theorem physPhase_exampleGameC4 :
    physPhase exampleGameC4 0 false false = exampleGameC4 := by
  have htdiv : (16:ℤ).tdiv 2 = 8 := by decide
  norm_num [physPhase, exampleGameC4, Paddle.update, Paddle.velAfter, Paddle.rawX,
    Ball.update, reflectBallOffPaddle, ballBrickCollision, brickStep,
    Rect.collidepointF, Rect.inflate, Rect.left, Rect.right, Rect.top, Rect.bottom,
    Paddle.rect, pyInt, htdiv, PADDLE_ACCEL, PADDLE_FRICTION, PADDLE_MAX_SPEED, FPS,
    LOGICAL_W, LOGICAL_H, PADDLE_Y, PADDLE_W, PADDLE_H, BALL_RADIUS,
    Game.mk.injEq, Paddle.mk.injEq, Ball.mk.injEq, Brick.mk.injEq]

/-- Witness for C4: updating `exampleGameC4` (one life, free ball at
`y = 700 > 600 + 8`) decrements lives to zero, transitions to `INPUT_NAME`
with "GAME OVER" and docks the ball with zero velocity. -/
theorem claim_C4_witness :
    (Game.update exampleGameC4 0 false false randZero).lives = 0 ∧
    (Game.update exampleGameC4 0 false false randZero).state = .INPUT_NAME ∧
    (Game.update exampleGameC4 0 false false randZero).final_message = "GAME OVER" ∧
    (Game.update exampleGameC4 0 false false randZero).ball.stuck = true ∧
    (Game.update exampleGameC4 0 false false randZero).ball.vx = 0 ∧
    (Game.update exampleGameC4 0 false false randZero).ball.vy = 0 := by
  have h := claim_C4_bottom_edge_life_loss exampleGameC4 0 false false randZero rfl rfl
    (by rw [physPhase_exampleGameC4]; rfl)
    (by rw [physPhase_exampleGameC4]; norm_num [exampleGameC4, LOGICAL_H])
    (by
      rw [physPhase_exampleGameC4]
      exact ⟨⟨⟨42, 80, 56, 24⟩, RED, true⟩, by simp [exampleGameC4], rfl⟩)
  obtain ⟨hl, hz, _⟩ := h
  obtain ⟨hs, hm, hstuck, hvx, hvy⟩ := hz rfl
  refine ⟨?_, hs, hm, hstuck, hvx, hvy⟩
  rw [hl]
  decide

/-- With `dt = 0` and no input, the physics phase of `exampleGameC5` is the
identity: the docked ball is re-slaved to the unmoved paddle at its original
position and the only brick is dead, so nothing collides. -/
theorem physPhase_exampleGameC5 :
    physPhase exampleGameC5 0 false false = exampleGameC5 := by
  norm_num [physPhase, exampleGameC5, Paddle.update, Paddle.velAfter, Paddle.rawX,
    Ball.update, reflectBallOffPaddle, ballBrickCollision, brickStep, freshBall,
    Rect.collidepointF, Rect.inflate, Rect.left, Rect.right, Rect.top, Rect.bottom,
    Paddle.rect, pyInt, PADDLE_ACCEL, PADDLE_FRICTION, PADDLE_MAX_SPEED, FPS,
    LOGICAL_W, LOGICAL_H, PADDLE_Y, PADDLE_W, PADDLE_H, BALL_RADIUS,
    Game.mk.injEq, Paddle.mk.injEq, Ball.mk.injEq, Brick.mk.injEq]

/-- Witness for C5: updating `exampleGameC5` (level 1, all bricks dead)
auto-advances to level 2, grants a bonus life (3 → 4), regenerates the
brick field for level 2, docks a fresh ball and raises the unlock
high-water mark to 2. -/
theorem claim_C5_witness :
    (Game.update exampleGameC5 0 false false randZero).level = 2 ∧
    (Game.update exampleGameC5 0 false false randZero).lives = 4 ∧
    (Game.update exampleGameC5 0 false false randZero).bricks = buildLevel 2 randZero ∧
    (Game.update exampleGameC5 0 false false randZero).ball.stuck = true ∧
    (Game.update exampleGameC5 0 false false randZero).state = .PLAYING ∧
    (Game.update exampleGameC5 0 false false randZero).unlocked_level = 2 := by
  have h := claim_C5_level_complete exampleGameC5 0 false false randZero rfl rfl
    (by
      rw [physPhase_exampleGameC5]
      intro b hb
      simp only [exampleGameC5] at hb
      simp only [List.mem_singleton] at hb
      rw [hb])
    (by
      rw [physPhase_exampleGameC5]
      intro hc
      simp [exampleGameC5, freshBall] at hc)
  obtain ⟨hadv, _, hunl, _⟩ := h
  obtain ⟨hlev, hlives, hbricks, _, hstuck, hstate⟩ :=
    hadv (by norm_num [exampleGameC5])
  refine ⟨?_, ?_, ?_, hstuck, hstate, ?_⟩
  · rw [hlev]; decide
  · rw [hlives]; decide
  · rw [hbricks]
    norm_num [exampleGameC5]
  · rw [hunl]
    norm_num [exampleGameC5]

/-- **C9.** An F10 keydown while PLAYING with a non-empty brick list
replaces the brick field by the single-element list holding only its first
brick, repositioned just above the paddle (`centerx = int(paddle.x)`,
`bottom = int(paddle.y - 100)`), with its liveness and color untouched and
no score submission fired — so the brick collection can shrink mid-level by
a means other than brick destruction or level start/advance. -/
theorem claim_C9_f10_cheat (g : Game) (uni : String) (pr : Bool) (θ : ℝ) (rnd : Rand)
    (b : Brick) (bs : List Brick)
    (hst : g.state = .PLAYING) (hbr : g.bricks = b :: bs) :
    (handleEvent g (.keyDown .f10 uni pr) θ rnd).1.bricks = [cheatBrick b g.paddle] ∧
    (handleEvent g (.keyDown .f10 uni pr) θ rnd).1.bricks.length = 1 ∧
    (cheatBrick b g.paddle).rect.bottom = pyInt (g.paddle.y - 100) ∧
    (cheatBrick b g.paddle).rect.centerx = pyInt g.paddle.x ∧
    (cheatBrick b g.paddle).alive = b.alive ∧
    (cheatBrick b g.paddle).color = b.color ∧
    (handleEvent g (.keyDown .f10 uni pr) θ rnd).2 = [] := by
  have hhe : handleEvent g (.keyDown .f10 uni pr) θ rnd = (handleKeyPlaying g .f10 θ, []) := by
    simp only [handleEvent, hst]
  have hch : cheat g = { g with bricks := [cheatBrick b g.paddle] } := by
    unfold cheat
    rw [hbr]
  have hkp : handleKeyPlaying g .f10 θ = cheat g := rfl
  rw [hhe, hkp, hch]
  refine ⟨rfl, rfl, ?_, ?_, rfl, rfl, rfl⟩
  · simp only [cheatBrick, Rect.bottom]
    omega
  · simp only [cheatBrick, Rect.centerx]
    omega

/-- Witness for C9: firing F10 in a concrete playing state with two bricks
leaves exactly one brick, sitting just above the default paddle
(`centerx = 400`, `bottom = 440`). -/
theorem claim_C9_witness :
    (handleEvent
      { state := .PLAYING, unlocked_level := 1, level := 1, lives := 3, score := 0,
        bricks := [⟨⟨42, 80, 56, 24⟩, RED, true⟩, ⟨⟨102, 80, 56, 24⟩, CYAN, true⟩],
        paddle := {}, ball := freshBall {}, paused := false,
        player_name := "", final_message := "" }
      (.keyDown .f10 "" true) 0 randZero).1.bricks.length = 1 ∧
    (cheatBrick ⟨⟨42, 80, 56, 24⟩, RED, true⟩ ({} : Paddle)).rect.bottom = 440 ∧
    (cheatBrick ⟨⟨42, 80, 56, 24⟩, RED, true⟩ ({} : Paddle)).rect.centerx = 400 := by
  have h := claim_C9_f10_cheat
    { state := .PLAYING, unlocked_level := 1, level := 1, lives := 3, score := 0,
      bricks := [⟨⟨42, 80, 56, 24⟩, RED, true⟩, ⟨⟨102, 80, 56, 24⟩, CYAN, true⟩],
      paddle := {}, ball := freshBall {}, paused := false,
      player_name := "", final_message := "" }
    "" true 0 randZero ⟨⟨42, 80, 56, 24⟩, RED, true⟩ [⟨⟨102, 80, 56, 24⟩, CYAN, true⟩]
    rfl rfl
  refine ⟨h.2.1, ?_, ?_⟩
  · rw [h.2.2.1]
    norm_num [pyInt, PADDLE_Y]
  · rw [h.2.2.2.1]
    norm_num [pyInt, LOGICAL_W]

/-- Paddle reflection never changes the docked flag. -/
theorem reflect_stuck (b : Ball) (p : Paddle) :
    (reflectBallOffPaddle b p).stuck = b.stuck := by
  simp only [reflectBallOffPaddle]
  split_ifs <;> rfl

/-- **C10.** If every inclusion draw fails (each `random.random()` value is
at most `0.2`), brick-field generation for any level ≥ 5 returns the empty
list; the collision pass over an empty field destroys nothing; and on the
very first playing tick after starting such a level the vacuous
all-bricks-dead condition completes the level immediately with zero score
(for level ≥ 5 the next level does not exist, so the session transitions to
`INPUT_NAME` with message "VICTORY!"). -/
theorem claim_C10_empty_random_level :
    (∀ (lvl : ℤ) (rnd : Rand), 5 ≤ lvl → (∀ n, rnd.inc n ≤ 1/5) →
      buildLevel lvl rnd = []) ∧
    (∀ ball : Ball, ballBrickCollision ball [] = (ball, [], 0)) ∧
    (∀ (g : Game) (lvl : ℤ) (rnd rnd2 : Rand) (dt : ℝ) (l r : Bool),
      5 ≤ lvl → (∀ n, rnd.inc n ≤ 1/5) →
      ((startLevel g lvl rnd).update dt l r rnd2).state = .INPUT_NAME ∧
      ((startLevel g lvl rnd).update dt l r rnd2).final_message = "VICTORY!" ∧
      ((startLevel g lvl rnd).update dt l r rnd2).score = 0) := by
  have hbuild : ∀ (lvl : ℤ) (rnd : Rand), 5 ≤ lvl → (∀ n, rnd.inc n ≤ 1/5) →
      buildLevel lvl rnd = [] := by
    intro lvl rnd hlvl hinc
    simp only [buildLevel]
    rw [if_neg (by omega), if_neg (by omega), if_neg (by omega), if_neg (by omega)]
    refine List.flatMap_eq_nil_iff.mpr fun row hrow => ?_
    rw [List.filter_eq_nil_iff.mpr fun col hcol => ?_]
    · rfl
    · simp only [decide_eq_true_eq]
      exact not_lt.mpr (hinc _)
  refine ⟨hbuild, fun ball => rfl, ?_⟩
  intro g lvl rnd rnd2 dt l r hlvl hinc
  have hnil : (startLevel g lvl rnd).bricks = [] := hbuild lvl rnd hlvl hinc
  have hstuck1 : (physPhase (startLevel g lvl rnd) dt l r).ball.stuck = true := by
    simp only [physPhase]
    rw [hnil]
    rw [show (startLevel g lvl rnd).ball.stuck = true from rfl]
    rw [if_pos rfl]
    exact reflect_stuck _ _
  have hbricks1 : (physPhase (startLevel g lvl rnd) dt l r).bricks = [] := by
    simp only [physPhase]
    rw [hnil]
    rfl
  have hscore1 : (physPhase (startLevel g lvl rnd) dt l r).score = 0 := by
    simp only [physPhase]
    rw [hnil]
    show (startLevel g lvl rnd).score + ((0 : ℕ) : ℤ) * 10 = 0
    show (0 : ℤ) + ((0 : ℕ) : ℤ) * 10 = 0
    norm_num
  have hupd : (startLevel g lvl rnd).update dt l r rnd2
      = levelComplete (physPhase (startLevel g lvl rnd) dt l r) rnd2 := by
    rw [update_eq_updatePlaying _ dt l r rnd2 rfl rfl]
    simp only [updatePlaying]
    have hlost : ¬ ((physPhase (startLevel g lvl rnd) dt l r).ball.stuck = false ∧
        (LOGICAL_H : ℝ) < (physPhase (startLevel g lvl rnd) dt l r).ball.y
          - ((physPhase (startLevel g lvl rnd) dt l r).ball.r : ℝ)) := by
      intro hc
      rw [hstuck1] at hc
      exact absurd hc.1 (by simp)
    rw [if_neg hlost]
    have hall2 : ((physPhase (startLevel g lvl rnd) dt l r).bricks.all
        (fun b => !b.alive)) = true := by
      rw [hbricks1]; rfl
    rw [if_pos hall2]
  rw [hupd]
  have h5n : ¬ (physPhase (startLevel g lvl rnd) dt l r).level + 1 ≤ 5 := by
    show ¬ lvl + 1 ≤ 5
    omega
  simp only [levelComplete]
  rw [if_neg h5n]
  exact ⟨rfl, rfl, hscore1⟩

/-- Witness for C10: with level 5 and the constant draw stream `1/10`
(every inclusion draw fails), `build_level` returns no bricks and the first
tick of the fresh session ends it with "VICTORY!" and zero score. -/
theorem claim_C10_witness :
    buildLevel 5 ⟨fun _ => 1/10, fun _ => 0⟩ = [] ∧
    ((startLevel initGame 5 ⟨fun _ => 1/10, fun _ => 0⟩).update 0 false false
        randZero).state = .INPUT_NAME ∧
    ((startLevel initGame 5 ⟨fun _ => 1/10, fun _ => 0⟩).update 0 false false
        randZero).final_message = "VICTORY!" ∧
    ((startLevel initGame 5 ⟨fun _ => 1/10, fun _ => 0⟩).update 0 false false
        randZero).score = 0 := by
  have hinc : ∀ n, (⟨fun _ => 1/10, fun _ => 0⟩ : Rand).inc n ≤ 1/5 := fun _ => by norm_num
  have h5 : (5:ℤ) ≤ 5 := le_refl 5
  have h := claim_C10_empty_random_level
  exact ⟨h.1 5 _ h5 hinc,
    (h.2.2 initGame 5 _ randZero 0 false false h5 hinc).1,
    (h.2.2 initGame 5 _ randZero 0 false false h5 hinc).2.1,
    (h.2.2 initGame 5 _ randZero 0 false false h5 hinc).2.2⟩

/-! Lemmas for C6: the submission side effect fires only on RETURN in
`INPUT_NAME`, and no event sequence can re-enter `INPUT_NAME` (that state is
only entered by `Game.update`, never by `Game.handle_event`). -/

theorem launchBall_state (g : Game) (θ : ℝ) : (launchBall g θ).state = g.state := by
  unfold launchBall
  split_ifs <;> rfl

theorem cheat_state (g : Game) : (cheat g).state = g.state := by
  unfold cheat
  rcases g.bricks <;> rfl

theorem handleKeyPlaying_state_ne (g : Game) (k : Key) (θ : ℝ)
    (h : g.state ≠ .INPUT_NAME) : (handleKeyPlaying g k θ).state ≠ .INPUT_NAME := by
  rcases k
  · exact h
  · exact h
  · show (GState.MENU : GState) ≠ .INPUT_NAME
    decide
  · show (GState.MENU : GState) ≠ .INPUT_NAME
    decide
  · exact h
  · show (launchBall g θ).state ≠ .INPUT_NAME
    rw [launchBall_state]; exact h
  · show (cheat g).state ≠ .INPUT_NAME
    rw [cheat_state]; exact h
  · exact h

theorem menuClickStep_state_ne (pos : ℤ × ℤ) (rnd : Rand) (g : Game) (i : ℕ)
    (h : g.state ≠ .INPUT_NAME) : (menuClickStep pos rnd g i).state ≠ .INPUT_NAME := by
  unfold menuClickStep
  split_ifs
  · show (GState.PLAYING : GState) ≠ .INPUT_NAME
    decide
  · exact h

theorem menuClick_state_ne (g : Game) (pos : ℤ × ℤ) (rnd : Rand)
    (h : g.state ≠ .INPUT_NAME) : (menuClick g pos rnd).state ≠ .INPUT_NAME := by
  unfold menuClick
  generalize List.range 5 = l
  induction l generalizing g with
  | nil => exact h
  | cons a l ih =>
      rw [List.foldl_cons]
      exact ih _ (menuClickStep_state_ne pos rnd g a h)

/-- `handle_event` on a key press in the `INPUT_NAME` state runs the name
entry handler. -/
theorem handleEvent_keyDown_input (g : Game) (k : Key) (uni : String) (pr : Bool)
    (θ : ℝ) (rnd : Rand) (h : g.state = .INPUT_NAME) :
    handleEvent g (.keyDown k uni pr) θ rnd = handleKeyInputName g k uni pr := by
  obtain ⟨st, ul, lv, li, sc, br, pd, bl, pa, pn, fm⟩ := g
  have h2 : st = .INPUT_NAME := h
  subst h2
  rfl

/-- From any state other than `INPUT_NAME`, an event fires no submission and
cannot enter `INPUT_NAME`. -/
theorem handleEvent_no_send_of_ne (g : Game) (e : Event) (θ : ℝ) (rnd : Rand)
    (h : g.state ≠ .INPUT_NAME) :
    (handleEvent g e θ rnd).2 = [] ∧ (handleEvent g e θ rnd).1.state ≠ .INPUT_NAME := by
  obtain ⟨st, ul, lv, li, sc, br, pd, bl, pa, pn, fm⟩ := g
  rcases e with _ | ⟨button, pos⟩ | ⟨k, uni, printable⟩
  · exact ⟨rfl, h⟩
  · cases st
    · have hred : handleEvent ⟨.MENU, ul, lv, li, sc, br, pd, bl, pa, pn, fm⟩
          (.mouseDown button pos) θ rnd
          = if button = 1
            then (menuClick ⟨.MENU, ul, lv, li, sc, br, pd, bl, pa, pn, fm⟩ pos rnd, [])
            else (⟨.MENU, ul, lv, li, sc, br, pd, bl, pa, pn, fm⟩, []) := rfl
      rw [hred]
      split_ifs
      · exact ⟨rfl, menuClick_state_ne _ pos rnd h⟩
      · exact ⟨rfl, h⟩
    · exact ⟨rfl, h⟩
    · exact absurd rfl h
    · exact ⟨rfl, h⟩
  · cases st
    · exact ⟨rfl, h⟩
    · exact ⟨rfl, handleKeyPlaying_state_ne _ k θ h⟩
    · exact absurd rfl h
    · have hred : handleEvent ⟨.GAME_OVER, ul, lv, li, sc, br, pd, bl, pa, pn, fm⟩
          (.keyDown k uni printable) θ rnd
          = if k = .m
            then (⟨.MENU, ul, lv, li, sc, br, pd, bl, pa, pn, fm⟩, [])
            else (⟨.GAME_OVER, ul, lv, li, sc, br, pd, bl, pa, pn, fm⟩, []) := rfl
      rw [hred]
      split_ifs
      · refine ⟨rfl, ?_⟩
        show (GState.MENU : GState) ≠ .INPUT_NAME
        decide
      · exact ⟨rfl, h⟩

/-- In `INPUT_NAME`, an event either stays in `INPUT_NAME` with no
submission, or fires exactly one submission and moves to `GAME_OVER`. -/
theorem handleEvent_send_of_input (g : Game) (e : Event) (θ : ℝ) (rnd : Rand)
    (h : g.state = .INPUT_NAME) :
    ((handleEvent g e θ rnd).2 = [] ∧ (handleEvent g e θ rnd).1.state = .INPUT_NAME) ∨
    ((handleEvent g e θ rnd).2.length = 1 ∧
      (handleEvent g e θ rnd).1.state = .GAME_OVER) := by
  rcases e with _ | ⟨button, pos⟩ | ⟨k, uni, printable⟩
  · exact Or.inl ⟨rfl, h⟩
  · obtain ⟨st, ul, lv, li, sc, br, pd, bl, pa, pn, fm⟩ := g
    have h2 : st = .INPUT_NAME := h
    subst h2
    exact Or.inl ⟨rfl, rfl⟩
  · rw [handleEvent_keyDown_input g k uni printable θ rnd h]
    unfold handleKeyInputName
    split_ifs <;>
      first
        | exact Or.inr ⟨rfl, rfl⟩
        | exact Or.inl ⟨rfl, h⟩

/-- Outside `INPUT_NAME` an event sequence fires no submissions at all. -/
theorem runEvents_zero_of_ne (es : List (Event × ℝ × Rand)) (g : Game)
    (h : g.state ≠ .INPUT_NAME) : (runEvents g es).2 = 0 := by
  induction es generalizing g with
  | nil => rfl
  | cons t rest ih =>
      rcases t with ⟨e, θ, rnd⟩
      obtain ⟨hs, hst'⟩ := handleEvent_no_send_of_ne g e θ rnd h
      simp only [runEvents, hs, List.length_nil, Nat.zero_add]
      exact ih _ hst'

/-- From `INPUT_NAME` every event sequence fires at most one submission. -/
theorem runEvents_le_one (es : List (Event × ℝ × Rand)) (g : Game)
    (h : g.state = .INPUT_NAME) : (runEvents g es).2 ≤ 1 := by
  induction es generalizing g with
  | nil => exact Nat.zero_le 1
  | cons t rest ih =>
      rcases t with ⟨e, θ, rnd⟩
      rcases handleEvent_send_of_input g e θ rnd h with ⟨hs, hst'⟩ | ⟨hs, hst'⟩
      · simp only [runEvents, hs, List.length_nil, Nat.zero_add]
        exact ih _ hst'
      · have hz := runEvents_zero_of_ne rest (handleEvent g e θ rnd).1
          (by rw [hst']; decide)
        simp only [runEvents, hs, hz]
        omega

/-- **C6.** In `INPUT_NAME`, non-submit keys accumulate only printable
characters up to the 12-character cap and fire nothing; RETURN substitutes
"Anonymous" for an empty name, fires the score submission with exactly that
name and score and transitions to `GAME_OVER`; and over every event sequence
of a terminal session starting in `INPUT_NAME` the submission side effect
fires at most once (a second submit attempt after the transition never
re-triggers it). -/
theorem claim_C6_name_entry_submit_once :
    (∀ (g : Game) (k : Key) (uni : String) (pr : Bool) (θ : ℝ) (rnd : Rand),
      g.state = .INPUT_NAME → k ≠ .ret → k ≠ .back →
      (handleEvent g (.keyDown k uni pr) θ rnd).1.player_name
        = (if g.player_name.length < 12 ∧ pr = true then g.player_name ++ uni
           else g.player_name) ∧
      (handleEvent g (.keyDown k uni pr) θ rnd).2 = []) ∧
    (∀ (g : Game) (uni : String) (pr : Bool) (θ : ℝ) (rnd : Rand),
      g.state = .INPUT_NAME →
      (handleEvent g (.keyDown .ret uni pr) θ rnd).2
        = [(if g.player_name = "" then "Anonymous" else g.player_name, g.score)] ∧
      (handleEvent g (.keyDown .ret uni pr) θ rnd).1.state = .GAME_OVER ∧
      (handleEvent g (.keyDown .ret uni pr) θ rnd).1.player_name
        = (if g.player_name = "" then "Anonymous" else g.player_name)) ∧
    (∀ g : Game, g.state = .INPUT_NAME →
      ∀ es : List (Event × ℝ × Rand), (runEvents g es).2 ≤ 1) := by
  refine ⟨?_, ?_, fun g h es => runEvents_le_one es g h⟩
  · intro g k uni pr θ rnd hst hret hback
    simp only [handleEvent, hst]
    unfold handleKeyInputName
    rw [if_neg hret, if_neg hback]
    by_cases hc : g.player_name.length < 12 ∧ pr = true
    · rw [if_pos hc, if_pos hc]
      exact ⟨rfl, rfl⟩
    · rw [if_neg hc, if_neg hc]
      exact ⟨rfl, rfl⟩
  · intro g uni pr θ rnd hst
    simp only [handleEvent, hst]
    unfold handleKeyInputName
    rw [if_pos rfl]
    exact ⟨rfl, rfl, rfl⟩

/-- Witness for C6: submitting an empty name at `exampleGameC6` fires
`("Anonymous", 50)`, and a trace with two submit attempts still fires at
most one submission. -/
theorem claim_C6_witness :
    (handleEvent exampleGameC6 (.keyDown .ret "" true) 0 randZero).2
      = [("Anonymous", 50)] ∧
    (handleEvent exampleGameC6 (.keyDown .ret "" true) 0 randZero).1.state
      = .GAME_OVER ∧
    (runEvents exampleGameC6
      [(.keyDown .ret "" true, 0, randZero), (.keyDown .ret "" true, 0, randZero)]).2
      ≤ 1 := by
  have hsub := claim_C6_name_entry_submit_once.2.1 exampleGameC6 "" true 0 randZero rfl
  have htrace := claim_C6_name_entry_submit_once.2.2 exampleGameC6 rfl
    [(.keyDown .ret "" true, 0, randZero), (.keyDown .ret "" true, 0, randZero)]
  refine ⟨?_, hsub.2.1, htrace⟩
  rw [hsub.1]
  rfl

end

end Breakout
